import Mathlib

/-!
# Verification of the `tantivy-basics` demo against its specification

The repository consists of a single driver (`src/main.rs`) exercising an
embedded full-text search engine: it builds a schema with a `title` field
(indexed and stored) and a `body` field (indexed, not stored), adds three
documents, commits, parses the query "sea whale" over default fields
`[title, body]`, searches with a top-10 collector and retrieves the stored
fields of every hit.

The engine itself (schema model, tokenizer, writer/commit protocol,
reader/searcher snapshots, query parser, TF-IDF scorer, top-K collector,
document store) is not part of the repository's sources: only its caller
is.  Following the specification, those components are modelled here as a
shallow embedding; each such definition carries a doc comment starting
`Modelled from the spec:`.  The concrete schema, documents, query text,
default fields and limit are transcribed from `src/main.rs`.
-/

namespace TantivyBasics

/-! ## Schema and document model -/

/-- Modelled from the spec: a `Field` has a name and the flags
{INDEXED, STORED} (§3 Data model).  The value type is text throughout the
program. -/
structure FieldDef where
  name : String
  indexed : Bool
  stored : Bool
deriving DecidableEq, Repr

/-- Modelled from the spec: a `Schema` is an ordered set of fields (§3). -/
abbrev Schema := List FieldDef

/-- Whether a field name is flagged INDEXED in the schema. -/
def Schema.isIndexed (sch : Schema) (f : String) : Bool :=
  sch.any fun fd => fd.name = f && fd.indexed

/-- Whether a field name is flagged STORED in the schema. -/
def Schema.isStored (sch : Schema) (f : String) : Bool :=
  sch.any fun fd => fd.name = f && fd.stored

/-- Modelled from the spec: a `Document` is a mapping from field to one or
more text values (§3); represented as an association list of
(field name, value) pairs, one entry per `add_text` call. -/
abbrev Document := List (String × String)

/-- The values a document carries for a given field name. -/
def Document.fieldValues (d : Document) (f : String) : List String :=
  (List.filter (fun p => p.1 = f) d).map Prod.snd

/-! ## Tokenizer -/

/-- Modelled from the spec: index-time and query-time tokenization is
"lowercasing + simple word-splitting" (§4.2): maximal runs of alphanumeric
characters become tokens, every character is lowercased, all other
characters separate tokens. -/
def tokenizeAux : List Char → List Char → List String
  | [], [] => []
  | [], acc => [String.mk acc.reverse]
  | c :: cs, acc =>
    if c.isAlphanum then tokenizeAux cs (c.toLower :: acc)
    else if acc.isEmpty then tokenizeAux cs []
    else String.mk acc.reverse :: tokenizeAux cs []

/-- Modelled from the spec: the tokenization contract shared by the
indexing pipeline (§4.2) and the query parser (§4.5). -/
def tokenize (s : String) : List String :=
  tokenizeAux s.data []

/-- The token sequence a document's INDEXED field contributes to the
inverted index: tokenization of each of its values, in order; a field not
flagged INDEXED contributes no tokens. -/
def Document.fieldTokens (sch : Schema) (d : Document) (f : String) : List String :=
  if sch.isIndexed f then (d.fieldValues f).map tokenize |>.flatten else []

/-! ## Terms, query parsing -/

/-- Modelled from the spec: a `Term` is a (field, normalized token) pair
(§3). -/
structure Term where
  field : String
  token : String
deriving DecidableEq, Repr

/-- Modelled from the spec: `parse_query` tokenizes the free text with the
shared tokenizer and expands each term with no field prefix into a
disjunction across all `default_fields` (§4.5); the parsed query is the
resulting list of terms, implicitly OR'd. -/
def parse_query (text : String) (default_fields : List String) : List Term :=
  (tokenize text).flatMap fun tok => default_fields.map fun f => ⟨f, tok⟩

/-- Term frequency: how many times the term's token occurs among the
tokens of the term's field in the document (0 when the field is not
indexed). -/
def termFreq (sch : Schema) (d : Document) (t : Term) : Nat :=
  (d.fieldTokens sch t.field).count t.token

/-- Modelled from the spec: a document matches a parsed query iff it
contains at least one of the query's terms (§4.5). -/
def matchesQuery (sch : Schema) (q : List Term) (d : Document) : Bool :=
  q.any fun t => 0 < termFreq sch d t

/-! ## The program's concrete schema and documents (from `src/main.rs`) -/

/-- The program's schema: `title` is TEXT | STORED, `body` is TEXT
(indexed, not stored) — `src/main.rs` lines 15-16. -/
def programSchema : Schema :=
  [⟨"title", true, true⟩, ⟨"body", true, false⟩]

/-- First document added — `src/main.rs` lines 33-39. -/
def old_man_doc : Document :=
  [("title", "The Old Man and the Sea"),
   ("body", "He was an old man who fished alone in a skiff in the Gulf Stream and he had gone eighty-four days now without taking a fish.")]

/-- The document built by the `doc!` macro and added twice —
`src/main.rs` lines 46-68. -/
def mice_doc : Document :=
  [("title", "Of Mice and Men"),
   ("body", "A few miles south of Soledad, the Salinas River drops in close to the hillside bank and runs deep and green. The water is warm too, for it has slipped twinkling over the yellow sands in the sunlight before reaching the narrow pool. On one side of the river the golden foothill slopes curve up to the strong and rocky Gabilan Mountains, but on the valley side the water is lined with trees—willows fresh and green with every spring, carrying in their lower leaf junctures the debris of the winter’s flooding; and sycamores with mottled, white, recumbent limbs and branches that arch over the pool")]

/-- The three documents added by the program, in `add_document` order. -/
def programDocs : List Document :=
  [old_man_doc, mice_doc, mice_doc]

/-- The default fields handed to `QueryParser::for_index` —
`src/main.rs` line 112. -/
def programDefaultFields : List String :=
  ["title", "body"]

/-- The parsed program query, `parse_query "sea whale"` —
`src/main.rs` line 120. -/
def programQuery : List Term :=
  parse_query "sea whale" programDefaultFields

/-! ## Scoring (TF-IDF) and the top-K collector -/

/-- Document frequency of a term: in how many of the snapshot's documents
its token occurs (in its field). -/
def docFreq (sch : Schema) (docs : List Document) (t : Term) : Nat :=
  (docs.filter fun d => 0 < termFreq sch d t).length

/-- Modelled from the spec: inverse document frequency, "computed from the
total document count and the term's document frequency" (§4.6); rendered
as the ratio total/df in ℚ (0 when the term occurs nowhere), which is
positive and monotone in the same arguments as the logarithmic variant. -/
def idf (total df : Nat) : ℚ :=
  if df = 0 then 0 else (total : ℚ) / (df : ℚ)

/-- Modelled from the spec: document score = sum over all query terms of
tf(term, doc) × idf(term) (§4.6). -/
def score (sch : Schema) (docs : List Document) (q : List Term) (d : Document) : ℚ :=
  (q.map fun t => (termFreq sch d t : ℚ) * idf docs.length (docFreq sch docs t)).sum

/-- Modelled from the spec: the collector's output order — descending by
score, ties broken by ascending document address (§4.6). -/
def ResultOrder (a b : ℚ × Nat) : Prop :=
  b.1 < a.1 ∨ (a.1 = b.1 ∧ a.2 ≤ b.2)

instance : DecidableRel ResultOrder := fun a b => by
  unfold ResultOrder; infer_instance

instance : IsTotal (ℚ × Nat) ResultOrder := by
  constructor
  intro a b
  rcases lt_trichotomy a.1 b.1 with h | h | h
  · exact Or.inr (Or.inl h)
  · rcases Nat.le_total a.2 b.2 with h2 | h2
    · exact Or.inl (Or.inr ⟨h, h2⟩)
    · exact Or.inr (Or.inr ⟨h.symm, h2⟩)
  · exact Or.inl (Or.inl h)

instance : IsTrans (ℚ × Nat) ResultOrder := by
  constructor
  intro a b c hab hbc
  rcases hab with hab | ⟨hab, hab2⟩
  · rcases hbc with hbc | ⟨hbc, _⟩
    · exact Or.inl (hbc.trans hab)
    · exact Or.inl (hbc ▸ hab)
  · rcases hbc with hbc | ⟨hbc, hbc2⟩
    · exact Or.inl (hab ▸ hbc)
    · exact Or.inr ⟨hab.trans hbc, hab2.trans hbc2⟩

/-- The scored matching documents of a snapshot: every document whose
address matches the query, paired with its score. -/
def candidates (sch : Schema) (docs : List Document) (q : List Term) : List (ℚ × Nat) :=
  (docs.enum.filter fun p => matchesQuery sch q p.2).map fun p => (score sch docs q p.2, p.1)

/-- Modelled from the spec: `searcher.search(query, TopDocs::with_limit(k))`
— score all matching documents, order descending by score with the
deterministic tie-break, and keep the best `k` (§4.6). -/
def search (sch : Schema) (docs : List Document) (q : List Term) (limit : Nat) : List (ℚ × Nat) :=
  (List.insertionSort ResultOrder (candidates sch docs q)).take limit

/-! ## Writer state, commit, reader/searcher snapshots -/

/-- Modelled from the spec: the index's mutable state — the committed
document sequence (the live segments flattened, in address order) and the
writer's uncommitted buffer (§3, §4.2). -/
structure IndexState where
  committed : List Document
  buffer : List Document
deriving DecidableEq

/-- Modelled from the spec: `add_document` buffers the document; nothing
becomes visible to readers (§4.2). -/
def add_document (st : IndexState) (d : Document) : IndexState :=
  { st with buffer := st.buffer ++ [d] }

/-- Adding a sequence of documents in order. -/
def addAll (st : IndexState) (ds : List Document) : IndexState :=
  ds.foldl add_document st

/-- Modelled from the spec: `commit` atomically publishes the buffered
documents as a new segment and clears the buffer (§4.2). -/
def commit (st : IndexState) : IndexState :=
  ⟨st.committed ++ st.buffer, []⟩

/-- Modelled from the spec: a `Searcher` is an immutable snapshot pinned
to the segment set of the generation visible when it was acquired (§4.4). -/
structure Searcher where
  pinned : List Document
deriving DecidableEq

/-- Modelled from the spec: `reader.searcher()` pins exactly the currently
committed generation's documents (§4.4). -/
def searcher (st : IndexState) : Searcher :=
  ⟨st.committed⟩

/-- Restriction of a document to its STORED fields. -/
def storedOnly (sch : Schema) (d : Document) : Document :=
  List.filter (fun p => sch.isStored p.1) d

/-- Modelled from the spec: `searcher.doc(address)` resolves an address
through the pinned snapshot to a value mapping restricted to STORED fields
only (§4.7). -/
def Searcher.doc (sch : Schema) (s : Searcher) (a : Nat) : Option Document :=
  (s.pinned.get? a).map (storedOnly sch)

/-- Modelled from the spec: the same resolution, written with the ambient
index state at call time as an explicit argument — per §4.4 the searcher
reads only its pinned segments, so the ambient state does not enter the
result. -/
def Searcher.docAt (sch : Schema) (s : Searcher) (_ambient : IndexState) (a : Nat) :
    Option Document :=
  Searcher.doc sch s a

/-! ## The program's run (from `src/main.rs`) -/

/-- The index state right after `Index::create_in_dir`. -/
def programInitial : IndexState :=
  ⟨[], []⟩

/-- State after the three `add_document` calls, before `commit`. -/
def programBeforeCommit : IndexState :=
  addAll programInitial programDocs

/-- State after `index_writer.commit()` — `src/main.rs` line 75. -/
def programAfterCommit : IndexState :=
  commit programBeforeCommit

/-- The searcher acquired from the reader after the commit —
`src/main.rs` line 104. -/
def programSearcher : Searcher :=
  searcher programAfterCommit

/-- `searcher.search(&query, &TopDocs::with_limit(10))` —
`src/main.rs` line 127. -/
def program_top_docs : List (ℚ × Nat) :=
  search programSchema programSearcher.pinned programQuery 10

/-! ## Commit protocol and crash model (for the durability claim) -/

/-- Modelled from the spec: a `Segment`, an immutable unit of indexed data
identified by a segment id (§3). -/
structure Segment where
  segId : Nat
  docs : List Document
deriving DecidableEq

/-- Modelled from the spec: the commit record — a generation number plus
the set of live segment ids, persisted atomically (§3). -/
structure CommitRecord where
  gen : Nat
  live : List Nat
deriving DecidableEq

/-- Modelled from the spec: the storage backend's durable contents — the
persisted segment files and the current commit record (§4.2, §6). -/
structure Store where
  segFiles : List Segment
  record : CommitRecord
deriving DecidableEq

/-- Modelled from the spec: commit step (2) — the new segment is fully
persisted to storage; the commit record is not yet touched (§4.2). -/
def writeSegment (st : Store) (seg : Segment) : Store :=
  { st with segFiles := st.segFiles ++ [seg] }

/-- Modelled from the spec: commit step (4) — the new commit record
(generation N+1, previous live segments plus the new one) is atomically
published (§4.2). -/
def publishCommit (st : Store) (segId : Nat) : Store :=
  { st with record := ⟨st.record.gen + 1, st.record.live ++ [segId]⟩ }

/-- Modelled from the spec: a successful commit performs the segment write
and then the atomic publish (§4.2). -/
def fullCommit (st : Store) (seg : Segment) : Store :=
  publishCommit (writeSegment st seg) seg.segId

/-- Modelled from the spec: the injected crash between segment write (2)
and commit-record publish (4) — the segment file reached storage, the
commit record did not change (§4.2, §8). -/
def crashBeforePublish (st : Store) (seg : Segment) : Store :=
  writeSegment st seg

/-- Modelled from the spec: opening the index reads the commit record and
loads exactly its live segments, in order (§4.3); a live id with no
segment file resolves to nothing. -/
def openIndex (st : Store) : Nat × List Document :=
  (st.record.gen,
   (st.record.live.filterMap fun i =>
      (st.segFiles.find? fun sg => sg.segId = i).map Segment.docs).flatten)

/-! ## Helper lemmas -/

theorem addAll_committed (ds : List Document) (st : IndexState) :
    (addAll st ds).committed = st.committed := by
  induction ds generalizing st with
  | nil => rfl
  | cons d ds ih => exact ih (add_document st d)

theorem addAll_buffer (ds : List Document) (st : IndexState) :
    (addAll st ds).buffer = st.buffer ++ ds := by
  induction ds generalizing st with
  | nil => simp [addAll]
  | cons d ds ih =>
    have h := ih (add_document st d)
    simp only [addAll] at h ⊢
    rw [List.foldl_cons, h]
    simp [add_document]

/-! ## Claim theorems -/

/-- C1: on the program's committed index (three documents, only the first
containing the token "sea", none containing "whale"), the query
"sea whale" parsed over `[title, body]` and searched with limit 10 returns
exactly one result — address 0, the document titled
"The Old Man and the Sea" — with score 3 > 0. -/
theorem sea_whale_single_hit :
    program_top_docs = [((3 : ℚ), 0)]
    ∧ (0 : ℚ) < 3
    ∧ Searcher.doc programSchema programSearcher 0
        = some [("title", "The Old Man and the Sea")]
    ∧ matchesQuery programSchema programQuery mice_doc = false := by
  have hshape : program_top_docs
      = [(score programSchema programSearcher.pinned programQuery old_man_doc, 0)] := rfl
  have hscore : score programSchema programSearcher.pinned programQuery old_man_doc = 3 := by
    have h1 : termFreq programSchema old_man_doc ⟨"title", "sea"⟩ = 1 := by decide
    have h2 : termFreq programSchema old_man_doc ⟨"body", "sea"⟩ = 0 := by decide
    have h3 : termFreq programSchema old_man_doc ⟨"title", "whale"⟩ = 0 := by decide
    have h4 : termFreq programSchema old_man_doc ⟨"body", "whale"⟩ = 0 := by decide
    have d1 : docFreq programSchema programSearcher.pinned ⟨"title", "sea"⟩ = 1 := by decide
    have hl : programSearcher.pinned.length = 3 := by decide
    have hq : programQuery
        = [⟨"title", "sea"⟩, ⟨"body", "sea"⟩, ⟨"title", "whale"⟩, ⟨"body", "whale"⟩] := by
      decide
    rw [score, hq]
    simp [h1, h2, h3, h4, d1, hl, idf]
  refine ⟨hshape.trans (by rw [hscore]), by norm_num, by decide, by decide⟩

/-- C2: a searcher acquired after a successful commit sees exactly the
documents committed so far (everything added before the commit, in order),
and acquiring a searcher after adds but before the commit shows none of
the buffered documents; in the program, the post-commit searcher sees
exactly the three added documents and the pre-commit index is empty. -/
theorem commit_atomicity :
    (∀ (st : IndexState) (ds : List Document),
        (searcher (commit (addAll st ds))).pinned = st.committed ++ (st.buffer ++ ds)
      ∧ (searcher (addAll st ds)).pinned = (searcher st).pinned)
    ∧ (searcher programAfterCommit).pinned = programDocs
    ∧ (searcher programBeforeCommit).pinned = [] := by
  refine ⟨fun st ds => ⟨?_, ?_⟩, rfl, rfl⟩
  · show (addAll st ds).committed ++ (addAll st ds).buffer = _
    rw [addAll_committed, addAll_buffer]
  · show (addAll st ds).committed = st.committed
    exact addAll_committed ds st

/-- C3: retrieval is restricted to STORED fields — generically, a field
not flagged STORED never appears in a retrieved mapping; in the program,
every address returned by the search retrieves exactly the stored `title`
value, and `body` is absent (not an error, the lookup succeeds). -/
theorem stored_fields_only :
    (∀ (sch : Schema) (d : Document) (f v : String),
        sch.isStored f = false → (f, v) ∉ storedOnly sch d)
    ∧ (∀ p ∈ program_top_docs,
        Searcher.doc programSchema programSearcher p.2
          = some [("title", "The Old Man and the Sea")])
    ∧ (∀ v : String, ("body", v) ∉ storedOnly programSchema old_man_doc)
    ∧ ("title", "The Old Man and the Sea") ∈ storedOnly programSchema old_man_doc := by
  have hstored : storedOnly programSchema old_man_doc
      = [("title", "The Old Man and the Sea")] := by decide
  refine ⟨?_, ?_, ?_, by decide⟩
  · intro sch d f v hns hmem
    have hp := List.of_mem_filter hmem
    simp only at hp
    rw [hns] at hp
    exact Bool.false_ne_true hp
  · intro p hp
    have hshape : program_top_docs
        = [(score programSchema programSearcher.pinned programQuery old_man_doc, 0)] := rfl
    rw [hshape, List.mem_singleton] at hp
    subst hp
    decide
  · intro v
    rw [hstored]
    simp

/-- C3 witness: the generic parts applied at a concrete field, value and
search result. -/
theorem stored_fields_only_witness :
    ("body", "whale") ∉ storedOnly programSchema old_man_doc
    ∧ Searcher.doc programSchema programSearcher
        ((score programSchema programSearcher.pinned programQuery old_man_doc, 0) : ℚ × Nat).2
        = some [("title", "The Old Man and the Sea")] :=
  ⟨stored_fields_only.1 programSchema old_man_doc "body" "whale" (by decide),
   stored_fields_only.2.1 _ (List.mem_singleton.mpr rfl)⟩

/-- C4: for every snapshot, query and limit K, the search result has
length at most K, is sorted by the collector's order (non-increasing
score, ties broken by ascending document address), and any result scoring
strictly higher than another precedes it. -/
theorem topk_invariant (sch : Schema) (docs : List Document) (q : List Term) (k : Nat) :
    (search sch docs q k).length ≤ k
    ∧ (search sch docs q k).Sorted ResultOrder
    ∧ ∀ (i j : Fin (search sch docs q k).length),
        ((search sch docs q k).get j).1 < ((search sch docs q k).get i).1 →
          (i : Nat) < (j : Nat) := by
  have hsorted : (search sch docs q k).Sorted ResultOrder :=
    (List.sorted_insertionSort ResultOrder (candidates sch docs q)).sublist
      (List.take_sublist k _)
  refine ⟨List.length_take_le k _, hsorted, ?_⟩
  intro i j hlt
  rcases lt_trichotomy (i : Nat) (j : Nat) with h | h | h
  · exact h
  · exact absurd hlt ((Fin.ext h : i = j) ▸ lt_irrefl _)
  · exfalso
    have hr := hsorted.rel_get_of_lt (Fin.lt_def.mpr h)
    rcases hr with h1 | ⟨h2, _⟩
    · exact lt_asymm hlt h1
    · rw [h2] at hlt
      exact lt_irrefl _ hlt

/-- C4 witness: the invariant applied to the program's own search. -/
theorem topk_invariant_witness :
    (search programSchema programSearcher.pinned programQuery 10).length ≤ 10 :=
  (topk_invariant programSchema programSearcher.pinned programQuery 10).1

/-- C5: a document matches the parsed query "sea whale" iff it contains at
least one of the terms (in either default field) — implicit OR, not AND —
and its score is the TF-IDF sum over the query's four expanded terms. -/
theorem or_query_semantics (sch : Schema) (d : Document) :
    (matchesQuery sch programQuery d = true
      ↔ "sea" ∈ d.fieldTokens sch "title" ∨ "sea" ∈ d.fieldTokens sch "body"
        ∨ "whale" ∈ d.fieldTokens sch "title" ∨ "whale" ∈ d.fieldTokens sch "body")
    ∧ score sch programDocs programQuery d
        = (termFreq sch d ⟨"title", "sea"⟩ : ℚ)
            * idf programDocs.length (docFreq sch programDocs ⟨"title", "sea"⟩)
          + (termFreq sch d ⟨"body", "sea"⟩ : ℚ)
            * idf programDocs.length (docFreq sch programDocs ⟨"body", "sea"⟩)
          + (termFreq sch d ⟨"title", "whale"⟩ : ℚ)
            * idf programDocs.length (docFreq sch programDocs ⟨"title", "whale"⟩)
          + (termFreq sch d ⟨"body", "whale"⟩ : ℚ)
            * idf programDocs.length (docFreq sch programDocs ⟨"body", "whale"⟩) := by
  have hq : programQuery
      = [⟨"title", "sea"⟩, ⟨"body", "sea"⟩, ⟨"title", "whale"⟩, ⟨"body", "whale"⟩] := by
    decide
  constructor
  · rw [matchesQuery, hq]
    simp [termFreq, List.count_pos_iff, or_assoc]
  · rw [score, hq]
    simp only [List.map_cons, List.map_nil, List.sum_cons, List.sum_nil]
    ring

/-- C5 witness: the OR semantics and TF-IDF equation at the program's
first document. -/
theorem or_query_semantics_witness :
    matchesQuery programSchema programQuery old_man_doc = true :=
  (or_query_semantics programSchema old_man_doc).1.mpr (Or.inl (by decide))

/-- C6: index-time and query-time tokenization share one rule
(lowercasing + word-splitting): "Sea" and "sea" tokenize identically, the
title of the first document indexes the token "sea", and the lowercase
query "sea" therefore matches that document. -/
theorem tokenizer_shared_normalization :
    tokenize "Sea" = ["sea"]
    ∧ tokenize "sea" = ["sea"]
    ∧ "sea" ∈ old_man_doc.fieldTokens programSchema "title"
    ∧ parse_query "sea" programDefaultFields = [⟨"title", "sea"⟩, ⟨"body", "sea"⟩]
    ∧ matchesQuery programSchema (parse_query "sea" programDefaultFields) old_man_doc
        = true := by
  refine ⟨rfl, rfl, by decide, rfl, by decide⟩

/-- C7: a searcher is pinned to the generation visible when it was
acquired — `doc` resolution does not depend on the ambient index state, so
two calls with the same address agree even across an interleaved commit,
and the pinned view never includes documents of a later commit. -/
theorem snapshot_isolation (sch : Schema) (st : IndexState) (ds : List Document) (a : Nat) :
    Searcher.docAt sch (searcher st) (commit (addAll st ds)) a
      = Searcher.docAt sch (searcher st) st a
    ∧ (searcher st).pinned = st.committed
    ∧ (searcher (commit (addAll st ds))).pinned = st.committed ++ (st.buffer ++ ds) := by
  refine ⟨rfl, rfl, ?_⟩
  show (addAll st ds).committed ++ (addAll st ds).buffer = _
  rw [addAll_committed, addAll_buffer]

/-- C7 witness: the pinned searcher of the program's fresh index answers
`doc` identically before and after the program's adds and commit. -/
theorem snapshot_isolation_witness :
    Searcher.docAt programSchema (searcher programInitial)
        (commit (addAll programInitial programDocs)) 0
      = Searcher.docAt programSchema (searcher programInitial) programInitial 0 :=
  (snapshot_isolation programSchema programInitial programDocs 0).1

/-- C8: if the process crashes after the new segment file is written but
before the commit record is published, reopening the index observes
exactly the prior committed generation — same generation number, same
visible documents, no resurrection of the partially committed segment. -/
theorem crash_preserves_prior_generation (st : Store) (seg : Segment)
    (hfresh : seg.segId ∉ st.record.live) :
    openIndex (crashBeforePublish st seg) = openIndex st := by
  unfold openIndex crashBeforePublish writeSegment
  simp only
  congr 2
  apply List.filterMap_congr
  intro i hi
  have hne : ¬ seg.segId = i := fun h => hfresh (h ▸ hi)
  rw [List.find?_append]
  have hnone : List.find? (fun sg => sg.segId = i) [seg] = none := by
    simp [List.find?, hne]
  rw [hnone, Option.or_none]

/-- C8 witness: the crash theorem at a concrete one-segment store and a
concrete in-flight segment. -/
theorem crash_preserves_prior_generation_witness :
    openIndex (crashBeforePublish ⟨[⟨0, [old_man_doc]⟩], ⟨1, [0]⟩⟩ ⟨1, [mice_doc]⟩)
      = openIndex ⟨[⟨0, [old_man_doc]⟩], ⟨1, [0]⟩⟩ :=
  crash_preserves_prior_generation ⟨[⟨0, [old_man_doc]⟩], ⟨1, [0]⟩⟩ ⟨1, [mice_doc]⟩
    (by decide)

/-- C9: a top-K search with limit 0 returns the empty list (a value, not
an error) for every snapshot and query — in particular for the program's
query, which does have a matching document. -/
theorem limit_zero_returns_empty :
    (∀ (sch : Schema) (docs : List Document) (q : List Term), search sch docs q 0 = [])
    ∧ matchesQuery programSchema programQuery old_man_doc = true
    ∧ search programSchema programSearcher.pinned programQuery 0 = [] := by
  exact ⟨fun sch docs q => rfl, by decide, rfl⟩

/-- C10: adding the same document twice creates two distinct,
independently retrievable documents — the committed index holds three
documents, and addresses 1 and 2 both resolve (to the duplicated
document's stored title). -/
theorem duplicate_add_distinct_docs :
    programSearcher.pinned.length = 3
    ∧ programSearcher.pinned.get? 1 = some mice_doc
    ∧ programSearcher.pinned.get? 2 = some mice_doc
    ∧ Searcher.doc programSchema programSearcher 1 = some [("title", "Of Mice and Men")]
    ∧ Searcher.doc programSchema programSearcher 2 = some [("title", "Of Mice and Men")]
    ∧ (1 : Nat) ≠ 2 := by
  refine ⟨rfl, rfl, rfl, by decide, by decide, by decide⟩

end TantivyBasics
